import Mathlib

/-!
Verification of the hybrid multitenant FastAPI service (src/main.py).

The embedding models the observable state of the system as a `World`:
the per-tenant SQLite databases (keyed by connection string), the list
of engines constructed so far (SQLAlchemy `create_engine` calls), and
the thread-local `tenant_context.prefix` slot. Python functions become
Lean functions threading the `World`; a raised `HTTPException` becomes
an `Except.error` carried next to the (unchanged, since every raise in
the source happens before any mutation) world.
-/

set_option autoImplicit false

namespace DBA

/-- Association-list lookup, modelling a Python dict `get` (first match wins). -/
def lookupA {α : Type} : List (String × α) → String → Option α
  | [], _ => none
  | (k', v) :: rest, k => if k' = k then some v else lookupA rest k

/-- Association-list update, modelling a Python dict item assignment:
replaces the binding for `k` when present, otherwise appends it. -/
def updateA {α : Type} : List (String × α) → String → α → List (String × α)
  | [], k, v => [(k, v)]
  | (k', v') :: rest, k, v =>
      if k' = k then (k, v) :: rest else (k', v') :: updateA rest k v

/-- Number of bindings for key `k` in an association list. -/
def countKey {α : Type} (l : List (String × α)) (k : String) : Nat :=
  (l.filter (fun p => p.1 = k)).length

/-- One entry of `TENANT_META`: connection string and table name piece. -/
structure TenantMeta where
  db_url : String
  table_pre : String
  deriving DecidableEq, Repr

/-- A raised `HTTPException(status_code, detail)`. -/
structure HTTPErr where
  status_code : Nat
  detail : String
  deriving DecidableEq, Repr

/-- One column of a SQL table definition. -/
structure ColumnDef where
  cname : String
  ctype : String
  primaryKey : Bool
  deriving DecidableEq, Repr

/-- A row of a tenant's users table: server-assigned id, name, email. -/
structure Row where
  id : Nat
  name : String
  email : String
  deriving DecidableEq, Repr

/-- A SQL table: its column definitions and its rows. -/
structure DBTable where
  cols : List ColumnDef
  rows : List Row
  deriving DecidableEq, Repr

/-- A database: tables keyed by table name. -/
abbrev Database := List (String × DBTable)

/-- Observable state: databases keyed by connection string, the urls of
all engines created so far (one entry per `create_engine` call), and the
thread-local `tenant_context.prefix` slot. -/
structure World where
  dbs : List (String × Database)
  enginesCreated : List String
  ctxPre : Option String
  deriving DecidableEq, Repr

/-- The fresh process state: no databases, no engines, unset context. -/
def emptyWorld : World := ⟨[], [], none⟩

/-- The static tenant registry `TENANT_META` from src/main.py. -/
def TENANT_META : List (String × TenantMeta) :=
  [("alpha", ⟨"sqlite:///./alpha.db", "alpha_"⟩),
   ("beta", ⟨"sqlite:///./beta.db", "beta_"⟩)]

/-- The request payload `UserCreate(name, email)`. -/
structure UserCreate where
  name : String
  email : String
  deriving DecidableEq, Repr

/-- `get_tenant_meta`: registry lookup; raises 404 when absent. -/
def get_tenant_meta (tenant_id : String) : Except HTTPErr TenantMeta :=
  match lookupA TENANT_META tenant_id with
  | none => .error ⟨404, "Tenant not found"⟩
  | some m => .ok m

/-- `get_db_session`: resolves the tenant, constructs a fresh engine
(`create_engine` on every call - recorded in `enginesCreated`, the
returned handle is its index), and stores the table name piece in the
thread-local context. SQLite connects lazily, so no database content
changes here. -/
def get_db_session (tenant_id : String) (w : World) :
    World × Except HTTPErr (Nat × String) :=
  match get_tenant_meta tenant_id with
  | .error e => (w, .error e)
  | .ok m =>
      let engineId := w.enginesCreated.length
      ({ w with
          enginesCreated := w.enginesCreated ++ [m.db_url],
          ctxPre := some (TenantMeta.table_pre m) },
       .ok (engineId, m.db_url))

/-- The column list `(id Integer primary_key, name String, email String)`
declared for every tenant users table. -/
def usersColumns : List ColumnDef :=
  [⟨"id", "INTEGER", true⟩, ⟨"name", "VARCHAR", false⟩, ⟨"email", "VARCHAR", false⟩]

/-- `ensure_tenant_table`: computes the table name, then
`metadata.create_all(engine)` - with its default existence check this
creates the table only when no table of that name exists, and is a
silent no-op otherwise (whatever the existing schema). Returns the
table name (the `Table` reference). -/
def ensure_tenant_table (url pre : String) (w : World) : World × String :=
  let table_name := pre ++ "users"
  let db := (lookupA w.dbs url).getD []
  match lookupA db table_name with
  | some _ => (w, table_name)
  | none =>
      ({ w with dbs := updateA w.dbs url (updateA db table_name ⟨usersColumns, []⟩) },
       table_name)

/-- The id SQLite assigns to the next inserted row of a table with an
integer primary key: one more than the largest existing id. -/
def nextId (rows : List Row) : Nat :=
  (rows.map Row.id).foldr Nat.max 0 + 1

/-- Executing `users_table.insert().values(name=.., email=..)` followed
by `commit`: appends one row with a server-assigned id and reports the
assigned id; `none` when the table does not exist (the backend would
raise, but every call site runs `ensure_tenant_table` first). -/
def insertRow (url tname n e : String) (w : World) : World × Option Nat :=
  let db := (lookupA w.dbs url).getD []
  match lookupA db tname with
  | none => (w, none)
  | some t =>
      let newId := nextId t.rows
      let db' := updateA db tname ⟨t.cols, t.rows ++ [⟨newId, n, e⟩]⟩
      ({ w with dbs := updateA w.dbs url db' }, some newId)

/-- `get_tenant_request`: reads the `X-Tenant-ID` header; `if not tenant_id`
raises 400 both when the header is absent and when it is the empty string
(Python truthiness). -/
def get_tenant_request (headers : List (String × String)) : Except HTTPErr String :=
  match lookupA headers "X-Tenant-ID" with
  | none => .error ⟨400, "Missing X-Tenant-ID header"⟩
  | some tenant_id =>
      if tenant_id = "" then .error ⟨400, "Missing X-Tenant-ID header"⟩
      else .ok tenant_id

/-- The `POST /users` handler `create_user`: resolve the tenant from the
headers, obtain a session/engine, ensure the tenant table, insert the
row, and answer with a fixed confirmation message. -/
def create_user (user : UserCreate) (headers : List (String × String)) (w : World) :
    World × Except HTTPErr String :=
  match get_tenant_request headers with
  | .error e => (w, .error e)
  | .ok tenant_id =>
      match get_db_session tenant_id w with
      | (w1, .error e) => (w1, .error e)
      | (w1, .ok (_, url)) =>
          let pre := w1.ctxPre.getD ""
          let r := ensure_tenant_table url pre w1
          match insertRow url r.2 user.name user.email r.1 with
          | (w3, some _) =>
              (w3, .ok ("User created in tenant \x27" ++ tenant_id ++ "\x27"))
          | (w3, none) => (w3, .error ⟨500, "no such table"⟩)

/-- The `GET /users` handler `list_users`: resolve the tenant, obtain a
session/engine, ensure the tenant table, select all rows. -/
def list_users (headers : List (String × String)) (w : World) :
    World × Except HTTPErr (List Row) :=
  match get_tenant_request headers with
  | .error e => (w, .error e)
  | .ok tenant_id =>
      match get_db_session tenant_id w with
      | (w1, .error e) => (w1, .error e)
      | (w1, .ok (_, url)) =>
          let pre := w1.ctxPre.getD ""
          let r := ensure_tenant_table url pre w1
          let db := (lookupA (World.dbs r.1) url).getD []
          match lookupA db r.2 with
          | none => (r.1, .error ⟨500, "no such table"⟩)
          | some t => (r.1, .ok t.rows)

/-- The table stored at connection string `url` under name `tname`. -/
def tableAt (w : World) (url tname : String) : Option DBTable :=
  lookupA ((lookupA w.dbs url).getD []) tname

/-- Request headers carrying only the tenant header. -/
def tidHeaders (tenant_id : String) : List (String × String) :=
  [("X-Tenant-ID", tenant_id)]

/-- A users table of incompatible schema: a lone text-typed id column. -/
def badTable : DBTable := ⟨[⟨"id", "VARCHAR", false⟩], []⟩

/-- A store where alpha's users table already exists with an incompatible
schema. -/
def badWorld : World :=
  ⟨[("sqlite:///./alpha.db", [("alpha_users", badTable)])], [], none⟩

/-- A store where alpha's users table already holds a row with id 5. -/
def seededWorld : World :=
  ⟨[("sqlite:///./alpha.db", [("alpha_users", ⟨usersColumns, [⟨5, "eve", "e@x"⟩]⟩)])],
   [], none⟩

/-- A sequence of create requests, all for the same tenant, applied in
order to the world. -/
def runCreates (tenant_id : String) (us : List UserCreate) (w : World) : World :=
  us.foldl (fun wa u => (create_user u (tidHeaders tenant_id) wa).1) w

/-- The world after `create_engine` for tenant meta `m`: one more engine
recorded and the thread-local slot set; databases untouched. -/
def afterEngine (m : TenantMeta) (w : World) : World :=
  ⟨w.dbs, w.enginesCreated ++ [m.db_url], some (TenantMeta.table_pre m)⟩

/-- The world after the tenant table has been created at `url`. -/
def afterCreateTable (url pre : String) (w : World) : World :=
  ⟨updateA w.dbs url
      (updateA ((lookupA w.dbs url).getD []) (pre ++ "users") ⟨usersColumns, []⟩),
   w.enginesCreated, w.ctxPre⟩

/-- The world after one row insert into table `tname` at `url`, when that
table currently reads `t`. -/
def afterInsert (url tname : String) (t : DBTable) (n e : String) (w : World) : World :=
  ⟨updateA w.dbs url
      (updateA ((lookupA w.dbs url).getD []) tname
        ⟨t.cols, t.rows ++ [⟨nextId t.rows, n, e⟩]⟩),
   w.enginesCreated, w.ctxPre⟩

/-- The tenant table as the data operations see it right after ensure:
the stored table when present, the freshly created empty one otherwise. -/
def currentTable (w : World) (url tname : String) : DBTable :=
  (tableAt w url tname).getD ⟨usersColumns, []⟩

theorem lookupA_updateA_self {α : Type} (l : List (String × α)) (k : String) (v : α) :
    lookupA (updateA l k v) k = some v := by
  induction l with
  | nil => simp [updateA, lookupA]
  | cons p rest ih =>
      obtain ⟨k', v'⟩ := p
      by_cases h : k' = k
      · simp [updateA, h, lookupA]
      · simp [updateA, h, lookupA, ih]

theorem lookupA_updateA_ne {α : Type} (l : List (String × α)) (k k' : String) (v : α)
    (h : k ≠ k') : lookupA (updateA l k v) k' = lookupA l k' := by
  induction l with
  | nil => simp [updateA, lookupA, h]
  | cons p rest ih =>
      obtain ⟨k'', v''⟩ := p
      by_cases h2 : k'' = k
      · subst h2
        simp [updateA, lookupA, h]
      · by_cases h3 : k'' = k'
        · simp [updateA, h2, lookupA, h3, Ne.symm h]
        · simp [updateA, h2, lookupA, h3, ih]

theorem countKey_of_lookupA_none {α : Type} (l : List (String × α)) (k : String)
    (h : lookupA l k = none) : countKey l k = 0 := by
  induction l with
  | nil => simp [countKey]
  | cons p rest ih =>
      obtain ⟨k', v'⟩ := p
      by_cases h2 : k' = k
      · simp [lookupA, h2] at h
      · simp [lookupA, h2] at h
        simp [countKey, List.filter, h2] at ih ⊢
        exact ih h

theorem countKey_updateA_of_none {α : Type} (l : List (String × α)) (k : String) (v : α)
    (h : lookupA l k = none) : countKey (updateA l k v) k = 1 := by
  induction l with
  | nil => simp [updateA, countKey, List.filter]
  | cons p rest ih =>
      obtain ⟨k', v'⟩ := p
      by_cases h2 : k' = k
      · simp [lookupA, h2] at h
      · simp [lookupA, h2] at h
        simp [updateA, h2, countKey, List.filter] at ih ⊢
        exact ih h

theorem get_tenant_request_tid (tenant_id : String) (hne : tenant_id ≠ "") :
    get_tenant_request (tidHeaders tenant_id) = .ok tenant_id := by
  unfold get_tenant_request tidHeaders lookupA
  simp [hne]

theorem get_db_session_ok (tenant_id : String) (m : TenantMeta)
    (hm : lookupA TENANT_META tenant_id = some m) (w : World) :
    get_db_session tenant_id w
      = (afterEngine m w, .ok (w.enginesCreated.length, m.db_url)) := by
  unfold get_db_session get_tenant_meta afterEngine
  rw [hm]

theorem ensure_tenant_table_snd (url pre : String) (w : World) :
    (ensure_tenant_table url pre w).2 = pre ++ "users" := by
  unfold ensure_tenant_table
  simp only []
  cases lookupA ((lookupA w.dbs url).getD []) (pre ++ "users") <;> rfl

theorem ensure_tenant_table_noop (url pre : String) (w : World) (t : DBTable)
    (h : tableAt w url (pre ++ "users") = some t) :
    ensure_tenant_table url pre w = (w, pre ++ "users") := by
  unfold tableAt at h
  unfold ensure_tenant_table
  simp only []
  rw [h]

theorem ensure_tenant_table_creates (url pre : String) (w : World)
    (h : tableAt w url (pre ++ "users") = none) :
    ensure_tenant_table url pre w = (afterCreateTable url pre w, pre ++ "users") := by
  unfold tableAt at h
  unfold ensure_tenant_table afterCreateTable
  simp only []
  rw [h]

theorem tableAt_ensure_self (url pre : String) (w : World) :
    tableAt (ensure_tenant_table url pre w).1 url (pre ++ "users")
      = some ((tableAt w url (pre ++ "users")).getD ⟨usersColumns, []⟩) := by
  cases hh : tableAt w url (pre ++ "users") with
  | some t =>
      rw [ensure_tenant_table_noop url pre w t hh]
      rw [hh]
      rfl
  | none =>
      rw [ensure_tenant_table_creates url pre w hh]
      unfold tableAt afterCreateTable
      simp [lookupA_updateA_self]

theorem tableAt_ensure_frame (url pre url' tname' : String) (w : World)
    (h : ¬(url' = url ∧ tname' = pre ++ "users")) :
    tableAt (ensure_tenant_table url pre w).1 url' tname' = tableAt w url' tname' := by
  cases hh : tableAt w url (pre ++ "users") with
  | some t => rw [ensure_tenant_table_noop url pre w t hh]
  | none =>
      rw [ensure_tenant_table_creates url pre w hh]
      unfold tableAt afterCreateTable
      by_cases hu : url' = url
      · subst hu
        have ht : tname' ≠ pre ++ "users" := fun hc => h ⟨rfl, hc⟩
        simp only [lookupA_updateA_self, Option.getD_some]
        rw [lookupA_updateA_ne _ _ _ _ (Ne.symm ht)]
      · rw [lookupA_updateA_ne _ _ _ _ (Ne.symm hu)]

theorem insertRow_spec (url tname n e : String) (w : World) (t : DBTable)
    (h : tableAt w url tname = some t) :
    insertRow url tname n e w = (afterInsert url tname t n e w, some (nextId t.rows)) := by
  unfold tableAt at h
  unfold insertRow afterInsert
  simp only []
  rw [h]

theorem tableAt_insertRow_self (url tname n e : String) (w : World) (t : DBTable)
    (h : tableAt w url tname = some t) :
    tableAt (insertRow url tname n e w).1 url tname
      = some ⟨t.cols, t.rows ++ [⟨nextId t.rows, n, e⟩]⟩ := by
  rw [insertRow_spec url tname n e w t h]
  unfold tableAt afterInsert
  simp [lookupA_updateA_self]

theorem tableAt_insertRow_frame (url tname n e url' tname' : String) (w : World)
    (t : DBTable) (h : tableAt w url tname = some t)
    (hne : ¬(url' = url ∧ tname' = tname)) :
    tableAt (insertRow url tname n e w).1 url' tname' = tableAt w url' tname' := by
  rw [insertRow_spec url tname n e w t h]
  unfold tableAt afterInsert
  by_cases hu : url' = url
  · subst hu
    have ht : tname' ≠ tname := fun hc => hne ⟨rfl, hc⟩
    simp only [lookupA_updateA_self, Option.getD_some]
    rw [lookupA_updateA_ne _ _ _ _ (Ne.symm ht)]
  · rw [lookupA_updateA_ne _ _ _ _ (Ne.symm hu)]

theorem registered_cases (tenant_id : String) (m : TenantMeta)
    (hm : lookupA TENANT_META tenant_id = some m) :
    (tenant_id = "alpha" ∧ m = ⟨"sqlite:///./alpha.db", "alpha_"⟩) ∨
    (tenant_id = "beta" ∧ m = ⟨"sqlite:///./beta.db", "beta_"⟩) := by
  unfold TENANT_META at hm
  simp only [lookupA] at hm
  split_ifs at hm with h1 h2
  · injection hm with h
    exact Or.inl ⟨h1.symm, h.symm⟩
  · injection hm with h
    exact Or.inr ⟨h2.symm, h.symm⟩

theorem registered_ne_empty (tenant_id : String) (m : TenantMeta)
    (hm : lookupA TENANT_META tenant_id = some m) : tenant_id ≠ "" := by
  rcases registered_cases tenant_id m hm with ⟨h, _⟩ | ⟨h, _⟩ <;> subst h <;> decide

theorem registry_urls_distinct (ta tb : String) (ma mb : TenantMeta)
    (hne : ta ≠ tb)
    (ha : lookupA TENANT_META ta = some ma)
    (hb : lookupA TENANT_META tb = some mb) :
    TenantMeta.db_url ma ≠ TenantMeta.db_url mb := by
  rcases registered_cases ta ma ha with ⟨h, hq⟩ | ⟨h, hq⟩ <;>
    rcases registered_cases tb mb hb with ⟨h', hq'⟩ | ⟨h', hq'⟩ <;>
    subst h <;> subst h' <;> subst hq <;> subst hq' <;>
    first
      | exact absurd rfl hne
      | decide

theorem create_user_run (tenant_id : String) (m : TenantMeta) (u : UserCreate) (w : World)
    (hm : lookupA TENANT_META tenant_id = some m) :
    create_user u (tidHeaders tenant_id) w
      = ((insertRow (TenantMeta.db_url m) (TenantMeta.table_pre m ++ "users")
            u.name u.email
            (ensure_tenant_table (TenantMeta.db_url m) (TenantMeta.table_pre m)
              (afterEngine m w)).1).1,
         .ok ("User created in tenant \x27" ++ tenant_id ++ "\x27")) := by
  have hne := registered_ne_empty tenant_id m hm
  have hreq := get_tenant_request_tid tenant_id hne
  have hsess := get_db_session_ok tenant_id m hm w
  have hens2 := ensure_tenant_table_snd (TenantMeta.db_url m) (TenantMeta.table_pre m)
      (afterEngine m w)
  have hself := tableAt_ensure_self (TenantMeta.db_url m) (TenantMeta.table_pre m)
      (afterEngine m w)
  have hins := insertRow_spec (TenantMeta.db_url m) (TenantMeta.table_pre m ++ "users")
      u.name u.email
      (ensure_tenant_table (TenantMeta.db_url m) (TenantMeta.table_pre m)
        (afterEngine m w)).1
      _ hself
  simp only [afterEngine] at hsess hens2 hself hins
  simp only [create_user, hreq, hsess, afterEngine, Option.getD_some, hens2, hins]

theorem create_user_resp (tenant_id : String) (m : TenantMeta) (u : UserCreate) (w : World)
    (hm : lookupA TENANT_META tenant_id = some m) :
    (create_user u (tidHeaders tenant_id) w).2
      = .ok ("User created in tenant \x27" ++ tenant_id ++ "\x27") := by
  rw [create_user_run tenant_id m u w hm]

theorem tableAt_create_user_self (tenant_id : String) (m : TenantMeta)
    (u : UserCreate) (w : World)
    (hm : lookupA TENANT_META tenant_id = some m) :
    tableAt (create_user u (tidHeaders tenant_id) w).1
        (TenantMeta.db_url m) (TenantMeta.table_pre m ++ "users")
      = some ⟨(currentTable w (TenantMeta.db_url m) (TenantMeta.table_pre m ++ "users")).cols,
              (currentTable w (TenantMeta.db_url m) (TenantMeta.table_pre m ++ "users")).rows
                ++ [⟨nextId (currentTable w (TenantMeta.db_url m)
                      (TenantMeta.table_pre m ++ "users")).rows, u.name, u.email⟩]⟩ := by
  rw [create_user_run tenant_id m u w hm]
  exact tableAt_insertRow_self _ _ _ _ _ _ (tableAt_ensure_self _ _ _)

theorem tableAt_create_user_frame (tenant_id : String) (m : TenantMeta)
    (u : UserCreate) (w : World)
    (hm : lookupA TENANT_META tenant_id = some m) (url' tname' : String)
    (h : ¬(url' = TenantMeta.db_url m ∧ tname' = TenantMeta.table_pre m ++ "users")) :
    tableAt (create_user u (tidHeaders tenant_id) w).1 url' tname'
      = tableAt w url' tname' := by
  rw [create_user_run tenant_id m u w hm]
  rw [tableAt_insertRow_frame _ _ _ _ _ _ _ _ (tableAt_ensure_self _ _ _) h]
  rw [tableAt_ensure_frame _ _ _ _ _ h]
  rfl

theorem list_users_run (tenant_id : String) (m : TenantMeta) (w : World)
    (hm : lookupA TENANT_META tenant_id = some m) :
    list_users (tidHeaders tenant_id) w
      = ((ensure_tenant_table (TenantMeta.db_url m) (TenantMeta.table_pre m)
            (afterEngine m w)).1,
         .ok (currentTable w (TenantMeta.db_url m)
                (TenantMeta.table_pre m ++ "users")).rows) := by
  have hne := registered_ne_empty tenant_id m hm
  have hreq := get_tenant_request_tid tenant_id hne
  have hsess := get_db_session_ok tenant_id m hm w
  have hens2 := ensure_tenant_table_snd (TenantMeta.db_url m) (TenantMeta.table_pre m)
      (afterEngine m w)
  have hself := tableAt_ensure_self (TenantMeta.db_url m) (TenantMeta.table_pre m)
      (afterEngine m w)
  unfold tableAt at hself
  simp only [afterEngine] at hsess hens2 hself
  simp only [list_users, hreq, hsess, afterEngine, Option.getD_some, hens2, hself,
    currentTable, tableAt]

theorem tableAt_list_users_self (tenant_id : String) (m : TenantMeta) (w : World)
    (hm : lookupA TENANT_META tenant_id = some m) :
    tableAt (list_users (tidHeaders tenant_id) w).1
        (TenantMeta.db_url m) (TenantMeta.table_pre m ++ "users")
      = some (currentTable w (TenantMeta.db_url m) (TenantMeta.table_pre m ++ "users")) := by
  rw [list_users_run tenant_id m w hm]
  exact tableAt_ensure_self _ _ _

theorem tableAt_list_users_frame (tenant_id : String) (m : TenantMeta) (w : World)
    (hm : lookupA TENANT_META tenant_id = some m) (url' tname' : String)
    (h : ¬(url' = TenantMeta.db_url m ∧ tname' = TenantMeta.table_pre m ++ "users")) :
    tableAt (list_users (tidHeaders tenant_id) w).1 url' tname'
      = tableAt w url' tname' := by
  rw [list_users_run tenant_id m w hm]
  rw [tableAt_ensure_frame _ _ _ _ _ h]
  rfl

/-- Claim C1: a second acquisition of a registered tenant's connection
handle is claimed to return the handle cached on first access, with at
most one live handle per tenant. The code constructs a fresh engine and
session factory on every call: after two acquisitions for tenant alpha
two engines exist, and the second call returns a different handle
(index 1) than the first (index 0). -/
theorem c1_second_acquisition_creates_new_engine :
    (get_db_session "alpha" emptyWorld).1.enginesCreated.length = 1 ∧
    (get_db_session "alpha" (get_db_session "alpha" emptyWorld).1).1.enginesCreated.length = 2 ∧
    (get_db_session "alpha" emptyWorld).2 = .ok (0, "sqlite:///./alpha.db") ∧
    (get_db_session "alpha" (get_db_session "alpha" emptyWorld).1).2
      = .ok (1, "sqlite:///./alpha.db") :=
  ⟨rfl, rfl, rfl, rfl⟩

/-- Claim C4: a request on either route without the X-Tenant-ID header
fails with the 400 client error and leaves the world untouched: no
registry lookup result is consumed, no engine is created, no schema or
data work happens. -/
theorem c4_missing_header_fails_before_backend_work
    (headers : List (String × String)) (u : UserCreate) (w : World)
    (h : lookupA headers "X-Tenant-ID" = none) :
    create_user u headers w = (w, .error ⟨400, "Missing X-Tenant-ID header"⟩) ∧
    list_users headers w = (w, .error ⟨400, "Missing X-Tenant-ID header"⟩) := by
  unfold create_user list_users get_tenant_request
  rw [h]
  exact ⟨rfl, rfl⟩

theorem c4_witness :
    create_user ⟨"bob", "b@x"⟩ [] emptyWorld
      = (emptyWorld, .error ⟨400, "Missing X-Tenant-ID header"⟩) ∧
    list_users [] emptyWorld
      = (emptyWorld, .error ⟨400, "Missing X-Tenant-ID header"⟩) :=
  c4_missing_header_fails_before_backend_work [] ⟨"bob", "b@x"⟩ emptyWorld rfl

/-- Claim C10: a present but empty X-Tenant-ID header is treated exactly
like an absent one: the 400 missing-header client error, not the 404
unknown-tenant error, and no backend work. -/
theorem c10_empty_header_treated_as_missing
    (headers : List (String × String)) (u : UserCreate) (w : World)
    (h : lookupA headers "X-Tenant-ID" = some "") :
    get_tenant_request headers = .error ⟨400, "Missing X-Tenant-ID header"⟩ ∧
    create_user u headers w = (w, .error ⟨400, "Missing X-Tenant-ID header"⟩) ∧
    list_users headers w = (w, .error ⟨400, "Missing X-Tenant-ID header"⟩) := by
  have hreq : get_tenant_request headers = .error ⟨400, "Missing X-Tenant-ID header"⟩ := by
    unfold get_tenant_request
    rw [h]
    simp
  refine ⟨hreq, ?_, ?_⟩
  · unfold create_user
    rw [hreq]
  · unfold list_users
    rw [hreq]

theorem c10_witness :
    get_tenant_request [("X-Tenant-ID", "")] = .error ⟨400, "Missing X-Tenant-ID header"⟩ ∧
    create_user ⟨"bob", "b@x"⟩ [("X-Tenant-ID", "")] emptyWorld
      = (emptyWorld, .error ⟨400, "Missing X-Tenant-ID header"⟩) ∧
    list_users [("X-Tenant-ID", "")] emptyWorld
      = (emptyWorld, .error ⟨400, "Missing X-Tenant-ID header"⟩) :=
  c10_empty_header_treated_as_missing [("X-Tenant-ID", "")] ⟨"bob", "b@x"⟩ emptyWorld rfl

/-- Claim C5: a nonempty tenant id outside the registry makes both routes
fail with the 404 client-visible error, and the world is unchanged: no
engine is created and no schema or data work is performed. -/
theorem c5_unknown_tenant_client_error
    (tenant_id : String) (u : UserCreate) (w : World)
    (hne : tenant_id ≠ "")
    (h : lookupA TENANT_META tenant_id = none) :
    create_user u (tidHeaders tenant_id) w = (w, .error ⟨404, "Tenant not found"⟩) ∧
    list_users (tidHeaders tenant_id) w = (w, .error ⟨404, "Tenant not found"⟩) := by
  have hreq : get_tenant_request (tidHeaders tenant_id) = .ok tenant_id := by
    unfold get_tenant_request tidHeaders lookupA
    simp [hne]
  have hsess : get_db_session tenant_id w = (w, .error ⟨404, "Tenant not found"⟩) := by
    unfold get_db_session get_tenant_meta
    rw [h]
  constructor
  · simp only [create_user, hreq, hsess]
  · simp only [list_users, hreq, hsess]

theorem c5_witness :
    create_user ⟨"bob", "b@x"⟩ (tidHeaders "gamma") emptyWorld
      = (emptyWorld, .error ⟨404, "Tenant not found"⟩) ∧
    list_users (tidHeaders "gamma") emptyWorld
      = (emptyWorld, .error ⟨404, "Tenant not found"⟩) :=
  c5_unknown_tenant_client_error "gamma" ⟨"bob", "b@x"⟩ emptyWorld (by decide) rfl

/-- Claim C6 counterexample: with an existing alpha users table of
incompatible schema (a lone text-typed id column), ensure raises no
SchemaConflict: it silently returns the table name with the world
unchanged, so the incompatible table survives unmigrated. -/
theorem c6_counterexample_silent_success :
    ensure_tenant_table "sqlite:///./alpha.db" "alpha_" badWorld = (badWorld, "alpha_users") ∧
    DBTable.cols badTable ≠ usersColumns :=
  ⟨rfl, by decide⟩

/-- Claim C6 as amended: when a table named after the tenant's namespace
piece plus "users" already exists, whatever its schema, ensure is a
silent no-op: it returns without error and leaves the world unchanged
(no migration, no SchemaConflict). -/
theorem c6_existing_table_kept_without_error
    (url pre : String) (w : World) (t : DBTable)
    (h : tableAt w url (pre ++ "users") = some t) :
    ensure_tenant_table url pre w = (w, pre ++ "users") := by
  unfold tableAt at h
  unfold ensure_tenant_table
  simp only []
  rw [h]

theorem c6_witness :
    ensure_tenant_table "sqlite:///./alpha.db" "alpha_" badWorld
      = (badWorld, "alpha_" ++ "users") :=
  c6_existing_table_kept_without_error "sqlite:///./alpha.db" "alpha_" badWorld badTable rfl

/-- Claim C8 counterexample: two create requests for alpha that are
assigned different row ids (1 on a fresh store, 6 on a store whose table
already holds id 5) receive identical responses: the fixed confirmation
message. The assigned identifier is therefore not returned to the
caller. -/
theorem c8_counterexample_id_not_returned :
    (create_user ⟨"bob", "b@x"⟩ (tidHeaders "alpha") emptyWorld).2
      = .ok "User created in tenant \x27alpha\x27" ∧
    (create_user ⟨"bob", "b@x"⟩ (tidHeaders "alpha") seededWorld).2
      = .ok "User created in tenant \x27alpha\x27" ∧
    tableAt (create_user ⟨"bob", "b@x"⟩ (tidHeaders "alpha") emptyWorld).1
        "sqlite:///./alpha.db" "alpha_users"
      = some ⟨usersColumns, [⟨1, "bob", "b@x"⟩]⟩ ∧
    tableAt (create_user ⟨"bob", "b@x"⟩ (tidHeaders "alpha") seededWorld).1
        "sqlite:///./alpha.db" "alpha_users"
      = some ⟨usersColumns, [⟨5, "eve", "e@x"⟩, ⟨6, "bob", "b@x"⟩]⟩ :=
  ⟨rfl, rfl, rfl, rfl⟩

/-- Claim C8 as amended: a successful create request for a registered
tenant inserts exactly one row - the tenant's table becomes its old rows
plus a single new row carrying the server-assigned id - while the
response to the caller is the fixed confirmation message, which does not
carry the assigned identifier. -/
theorem c8_insert_one_row_fixed_message (tenant_id : String) (m : TenantMeta)
    (u : UserCreate) (w : World)
    (hm : lookupA TENANT_META tenant_id = some m) :
    (create_user u (tidHeaders tenant_id) w).2
      = .ok ("User created in tenant \x27" ++ tenant_id ++ "\x27") ∧
    tableAt (create_user u (tidHeaders tenant_id) w).1
        (TenantMeta.db_url m) (TenantMeta.table_pre m ++ "users")
      = some ⟨(currentTable w (TenantMeta.db_url m) (TenantMeta.table_pre m ++ "users")).cols,
              (currentTable w (TenantMeta.db_url m) (TenantMeta.table_pre m ++ "users")).rows
                ++ [⟨nextId (currentTable w (TenantMeta.db_url m)
                      (TenantMeta.table_pre m ++ "users")).rows, u.name, u.email⟩]⟩ :=
  ⟨create_user_resp tenant_id m u w hm, tableAt_create_user_self tenant_id m u w hm⟩

theorem c8_witness :
    (create_user ⟨"bob", "b@x"⟩ (tidHeaders "alpha") emptyWorld).2
      = .ok ("User created in tenant \x27" ++ "alpha" ++ "\x27") ∧
    tableAt (create_user ⟨"bob", "b@x"⟩ (tidHeaders "alpha") emptyWorld).1
        "sqlite:///./alpha.db" ("alpha_" ++ "users")
      = some ⟨(currentTable emptyWorld "sqlite:///./alpha.db" ("alpha_" ++ "users")).cols,
              (currentTable emptyWorld "sqlite:///./alpha.db" ("alpha_" ++ "users")).rows
                ++ [⟨nextId (currentTable emptyWorld "sqlite:///./alpha.db"
                      ("alpha_" ++ "users")).rows, "bob", "b@x"⟩]⟩ :=
  c8_insert_one_row_fixed_message "alpha" ⟨"sqlite:///./alpha.db", "alpha_"⟩
    ⟨"bob", "b@x"⟩ emptyWorld rfl

/-- Claim C3 counterexample: the claim quantifies over every backing-store
state, but at a store whose alpha users table pre-exists with an
incompatible schema both ensure calls silently no-op: no error is
raised and exactly one table remains, yet not with the expected
definition, so the claim as stated fails at this input. -/
theorem c3_counterexample_incompatible_survives :
    ensure_tenant_table "sqlite:///./alpha.db" "alpha_"
        (ensure_tenant_table "sqlite:///./alpha.db" "alpha_" badWorld).1
      = (badWorld, "alpha_users") ∧
    countKey
        ((lookupA
            (World.dbs (ensure_tenant_table "sqlite:///./alpha.db" "alpha_"
              (ensure_tenant_table "sqlite:///./alpha.db" "alpha_" badWorld).1).1)
            "sqlite:///./alpha.db").getD [])
        "alpha_users" = 1 ∧
    tableAt (ensure_tenant_table "sqlite:///./alpha.db" "alpha_"
        (ensure_tenant_table "sqlite:///./alpha.db" "alpha_" badWorld).1).1
        "sqlite:///./alpha.db" "alpha_users" = some badTable ∧
    DBTable.cols badTable ≠ usersColumns :=
  ⟨rfl, by decide, rfl, by decide⟩

/-- Claim C3 as amended: on a fresh tenant store (no users table of that
name yet), calling ensure twice in a row leaves exactly one table of the
expected definition, and the second call is a perfect no-op rather than
an error: it returns the world of the first call unchanged. -/
theorem c3_ensure_idempotent (url pre : String) (w : World)
    (h : tableAt w url (pre ++ "users") = none) :
    ensure_tenant_table url pre (ensure_tenant_table url pre w).1
      = ((ensure_tenant_table url pre w).1, pre ++ "users") ∧
    tableAt (ensure_tenant_table url pre w).1 url (pre ++ "users")
      = some ⟨usersColumns, []⟩ ∧
    countKey ((lookupA (World.dbs (ensure_tenant_table url pre w).1) url).getD [])
        (pre ++ "users") = 1 := by
  have hself := tableAt_ensure_self url pre w
  rw [h] at hself
  simp only [Option.getD_none] at hself
  refine ⟨ensure_tenant_table_noop url pre _ _ hself, hself, ?_⟩
  rw [ensure_tenant_table_creates url pre w h]
  unfold afterCreateTable
  simp only [lookupA_updateA_self, Option.getD_some]
  unfold tableAt at h
  exact countKey_updateA_of_none _ _ _ h

theorem c3_witness :
    ensure_tenant_table "sqlite:///./alpha.db" "alpha_"
        (ensure_tenant_table "sqlite:///./alpha.db" "alpha_" emptyWorld).1
      = ((ensure_tenant_table "sqlite:///./alpha.db" "alpha_" emptyWorld).1,
         "alpha_" ++ "users") ∧
    tableAt (ensure_tenant_table "sqlite:///./alpha.db" "alpha_" emptyWorld).1
        "sqlite:///./alpha.db" ("alpha_" ++ "users") = some ⟨usersColumns, []⟩ ∧
    countKey
        ((lookupA
            (World.dbs (ensure_tenant_table "sqlite:///./alpha.db" "alpha_" emptyWorld).1)
            "sqlite:///./alpha.db").getD [])
        ("alpha_" ++ "users") = 1 :=
  c3_ensure_idempotent "sqlite:///./alpha.db" "alpha_" emptyWorld rfl

/-- Claim C7: for a registered tenant, inserting a record and then listing
that tenant's entities yields a sequence containing a record with that
name and email and a server-assigned integer id. -/
theorem c7_insert_then_list (tenant_id : String) (m : TenantMeta)
    (hm : lookupA TENANT_META tenant_id = some m) (n e : String) (w : World) :
    ∃ rows : List Row,
      (list_users (tidHeaders tenant_id)
          (create_user ⟨n, e⟩ (tidHeaders tenant_id) w).1).2 = .ok rows ∧
      ∃ i : Nat, Row.mk i n e ∈ rows := by
  rw [list_users_run tenant_id m _ hm]
  refine ⟨_, rfl, ?_⟩
  unfold currentTable
  rw [tableAt_create_user_self tenant_id m ⟨n, e⟩ w hm]
  refine ⟨nextId (currentTable w (TenantMeta.db_url m)
    (TenantMeta.table_pre m ++ "users")).rows, ?_⟩
  simp [currentTable]

theorem c7_witness :
    ∃ rows : List Row,
      (list_users (tidHeaders "alpha")
          (create_user ⟨"bob", "b@x"⟩ (tidHeaders "alpha") emptyWorld).1).2 = .ok rows ∧
      ∃ i : Nat, Row.mk i "bob" "b@x" ∈ rows :=
  c7_insert_then_list "alpha" ⟨"sqlite:///./alpha.db", "alpha_"⟩ rfl "bob" "b@x" emptyWorld

/-- Claim C2: for distinct registered tenants A and B, any sequence of
insert operations performed by tenant B leaves tenant A's listing
unchanged, starting from an arbitrary store: B's rows never appear in
A's listing, and by symmetry of the statement the converse holds as
well - the two tenants' tables are strictly isolated. -/
theorem c2_tenant_isolation (ta tb : String) (ma mb : TenantMeta)
    (hne : ta ≠ tb)
    (ha : lookupA TENANT_META ta = some ma)
    (hb : lookupA TENANT_META tb = some mb)
    (us : List UserCreate) (w : World) :
    (list_users (tidHeaders ta) (runCreates tb us w)).2
      = (list_users (tidHeaders ta) w).2 := by
  induction us generalizing w with
  | nil => rfl
  | cons u rest ih =>
      have hstep : runCreates tb (u :: rest) w
          = runCreates tb rest (create_user u (tidHeaders tb) w).1 := rfl
      rw [hstep, ih]
      rw [list_users_run ta ma _ ha, list_users_run ta ma w ha]
      have hfr := tableAt_create_user_frame tb mb u w hb
        (TenantMeta.db_url ma) (TenantMeta.table_pre ma ++ "users")
        (fun hc => registry_urls_distinct ta tb ma mb hne ha hb hc.1)
      simp only [currentTable, hfr]

theorem c2_witness :
    (list_users (tidHeaders "alpha")
        (runCreates "beta" [⟨"bob", "b@x"⟩, ⟨"eve", "e@x"⟩] emptyWorld)).2
      = (list_users (tidHeaders "alpha") emptyWorld).2 :=
  c2_tenant_isolation "alpha" "beta" ⟨"sqlite:///./alpha.db", "alpha_"⟩
    ⟨"sqlite:///./beta.db", "beta_"⟩ (by decide) rfl rfl
    [⟨"bob", "b@x"⟩, ⟨"eve", "e@x"⟩] emptyWorld

/-- Claim C9: a create or list request for a registered tenant touches
exactly the table named by that tenant's own namespace piece followed by
"users", inside that tenant's own database: every other (database, table)
slot is left exactly as it was, and the prefixed table itself exists
after the request. -/
theorem c9_operates_on_prefixed_table_only (tenant_id : String) (m : TenantMeta)
    (hm : lookupA TENANT_META tenant_id = some m) (u : UserCreate) (w : World)
    (url' tname' : String)
    (h : ¬(url' = TenantMeta.db_url m ∧ tname' = TenantMeta.table_pre m ++ "users")) :
    tableAt (create_user u (tidHeaders tenant_id) w).1 url' tname'
      = tableAt w url' tname' ∧
    tableAt (list_users (tidHeaders tenant_id) w).1 url' tname'
      = tableAt w url' tname' ∧
    tableAt (create_user u (tidHeaders tenant_id) w).1
        (TenantMeta.db_url m) (TenantMeta.table_pre m ++ "users") ≠ none ∧
    tableAt (list_users (tidHeaders tenant_id) w).1
        (TenantMeta.db_url m) (TenantMeta.table_pre m ++ "users") ≠ none := by
  refine ⟨tableAt_create_user_frame tenant_id m u w hm url' tname' h,
          tableAt_list_users_frame tenant_id m w hm url' tname' h, ?_, ?_⟩
  · rw [tableAt_create_user_self tenant_id m u w hm]
    simp
  · rw [tableAt_list_users_self tenant_id m w hm]
    simp

theorem c9_witness :
    tableAt (create_user ⟨"bob", "b@x"⟩ (tidHeaders "alpha") emptyWorld).1
        "sqlite:///./beta.db" "beta_users"
      = tableAt emptyWorld "sqlite:///./beta.db" "beta_users" ∧
    tableAt (list_users (tidHeaders "alpha") emptyWorld).1
        "sqlite:///./beta.db" "beta_users"
      = tableAt emptyWorld "sqlite:///./beta.db" "beta_users" ∧
    tableAt (create_user ⟨"bob", "b@x"⟩ (tidHeaders "alpha") emptyWorld).1
        "sqlite:///./alpha.db" ("alpha_" ++ "users") ≠ none ∧
    tableAt (list_users (tidHeaders "alpha") emptyWorld).1
        "sqlite:///./alpha.db" ("alpha_" ++ "users") ≠ none :=
  c9_operates_on_prefixed_table_only "alpha" ⟨"sqlite:///./alpha.db", "alpha_"⟩ rfl
    ⟨"bob", "b@x"⟩ emptyWorld "sqlite:///./beta.db" "beta_users" (by decide)

end DBA
